import Mathlib

/-!
Verification of the ctru-rs NDSP (audio) channel/wave-buffer binding.

Shallow embedding of `src/ctru-rs/src/services/ndsp/mod.rs`.

The Rust code wraps the native `libctru` audio service.  The native calls
(`ndspChnReset`, `ndspChnWaveBufClear`, `ndspChnWaveBufAdd`, ...) are
external side-effecting entry points; here they are modelled as pure
transformers over an explicit hardware state `HwState` holding, for each of
the 24 mixer channels, its wave-buffer queue and its parameter block.
`RefCell` exclusivity flags become explicit booleans and `try_borrow_mut`
becomes a test-and-set; fallible operations return `Except`.
-/

/-- `const NUMBER_OF_CHANNELS: u8 = 24;` -/
def NUMBER_OF_CHANNELS : Nat := 24

/-- The `AudioFormat` enum of `ndsp/mod.rs`. -/
inductive AudioFormat where
  | PCM8Mono
  | PCM16Mono
  | PCM8Stereo
  | PCM16Stereo
deriving DecidableEq, Repr

/-- `AudioFormat::sample_size`: bytes needed to store one sample.
Matches the `match` in `ndsp/mod.rs` lines 308-314. -/
def AudioFormat.sample_size : AudioFormat → Nat
  | .PCM8Mono => 1
  | .PCM16Mono => 2
  | .PCM8Stereo => 2
  | .PCM16Stereo => 4

/-- The `InterpolationType` enum of `ndsp/mod.rs`. -/
inductive InterpolationType where
  | Polyphase
  | Linear
  | NoInterp
deriving DecidableEq, Repr

/-- The `NdspError` enum of `ndsp/mod.rs`.  Channel ids are `u8` in Rust,
modelled as `Nat`. -/
inductive NdspError where
  | InvalidChannel (id : Nat)
  | ChannelAlreadyInUse (id : Nat)
  | WaveBusy (id : Nat)
  | SampleCountOutOfBounds (requested maxSamples : Nat)
deriving DecidableEq, Repr

/-- Modelled from the spec: the `WaveStatus` enum of the (absent)
`ndsp/wave.rs` module — "a status enum: `{Free, Queued, Playing, Done}`". -/
inductive WaveStatus where
  | Free
  | Queued
  | Playing
  | Done
deriving DecidableEq, Repr

/-- Modelled from the spec: the `WaveInfo` value of the (absent)
`ndsp/wave.rs` module — "one contiguous sample block plus its
format/looping metadata and a status enum"; "once queued, the buffer
records which channel ID owns it".  `bufId` stands for the identity of the
backing `ndspWaveBuf` allocation (the pointer handed to the hardware). -/
structure WaveInfo where
  bufId : Nat
  status : WaveStatus
  channelId : Option Nat
deriving DecidableEq, Repr

/-- Modelled from the spec: `WaveInfo::get_status` of the absent
`wave.rs` — "reflects the hardware's last-reported state for this specific
buffer". -/
def WaveInfo.get_status (w : WaveInfo) : WaveStatus := w.status

/-- Modelled from the spec: `WaveInfo::set_channel` of the absent
`wave.rs` — "internal bookkeeping invoked only by `Channel::queue_wave`;
records which lane owns this buffer". -/
def WaveInfo.set_channel (w : WaveInfo) (id : Nat) : WaveInfo :=
  { w with channelId := some id }

/-- The per-channel parameter block living in the native layer.  The
wrapper's setters marshal values into it; `ndspChnReset` returns it to the
default state.  Float-valued parameters (`f32` rate, `[f32; 12]` mix) are
modelled over `Rat`: no claim depends on float arithmetic, only on which
parameters are set. -/
structure ChannelParams where
  format : Option AudioFormat
  interpolation : Option InterpolationType
  sampleRate : Option Rat
  mix : Option (List Rat)
  paused : Bool
deriving DecidableEq, Repr

/-- The default (post-reset) parameter block. -/
def ChannelParams.initial : ChannelParams :=
  { format := none, interpolation := none, sampleRate := none
    mix := none, paused := false }

/-- Native-side state of one mixer channel: the wave-buffer queue (front =
currently playing buffer, FIFO order) and the parameter block. -/
structure ChannelState where
  queue : List Nat
  params : ChannelParams
deriving DecidableEq, Repr

/-- A freshly reset channel: empty queue, default parameters. -/
def ChannelState.initial : ChannelState :=
  { queue := [], params := ChannelParams.initial }

/-- Native-side state of the whole DSP: one `ChannelState` per mixer
channel (24 entries). -/
structure HwState where
  channels : List ChannelState
deriving DecidableEq, Repr

/-- Update channel `id` of the hardware state (out-of-range ids leave the
state unchanged, as `List.set` does). -/
def HwState.updateChannel (hw : HwState) (id : Nat) (f : ChannelState → ChannelState) :
    HwState :=
  match hw.channels[id]? with
  | some ch => { channels := hw.channels.set id (f ch) }
  | none => hw

/-- `ndspChnReset(id)`: native per-channel reset — clears the wave-buffer
queue and restores all channel parameters to their defaults (spec §4.3:
"equivalent to `clear_queue` plus parameter reset to defaults"). -/
def ndspChnReset (id : Nat) (hw : HwState) : HwState :=
  hw.updateChannel id (fun _ => ChannelState.initial)

/-- `ndspChnWaveBufClear(id)`: native queue clear — "stops playback and
discards all queued/playing buffers on this channel unconditionally". -/
def ndspChnWaveBufClear (id : Nat) (hw : HwState) : HwState :=
  hw.updateChannel id (fun ch => { ch with queue := [] })

/-- `ndspChnWaveBufAdd(id, buf)`: native queue append — the buffer is
appended at the back of channel `id`'s FIFO queue and its status becomes
`Queued` (the status write is on the `WaveInfo` side, in
`Channel.queue_wave`). -/
def ndspChnWaveBufAdd (id : Nat) (bufId : Nat) (hw : HwState) : HwState :=
  hw.updateChannel id (fun ch => { ch with queue := ch.queue ++ [bufId] })

/-- The `Channel<'ndsp>` handle: "a transient, non-owning handle tied to a
channel ID"; the borrowed `RefMut` carries no data, so only the id is
state. -/
structure Channel where
  id : Nat
deriving DecidableEq, Repr

/-- The `Ndsp` struct's `channel_flags: [RefCell<()>; 24]`.  A `RefCell<()>`
is pure borrow state: `true` means the slot's exclusivity flag is
currently borrowed by a live `Channel`. -/
structure Ndsp where
  channelFlags : List Bool
deriving DecidableEq, Repr

/-- The flag array a fresh `Ndsp::init` produces (`Default::default()`:
all unborrowed). -/
def Ndsp.freshFlags : Ndsp :=
  { channelFlags := List.replicate NUMBER_OF_CHANNELS false }

/-- `Ndsp::channel(id)` (`ndsp/mod.rs` lines 101-114):
`self.channel_flags.get(id as usize)` is `None` for `id ≥ 24`, giving
`InvalidChannel(id)`; otherwise `try_borrow_mut` fails iff the flag is
already held, giving `ChannelAlreadyInUse(id)`; on success the flag
becomes held and a `Channel { id }` is returned.  The (possibly updated)
borrow state is returned alongside the result. -/
def Ndsp.channel (n : Ndsp) (id : Nat) : Except NdspError Channel × Ndsp :=
  match n.channelFlags[id]? with
  | some flag =>
      if flag then (Except.error (NdspError.ChannelAlreadyInUse id), n)
      else (Except.ok { id := id }, { channelFlags := n.channelFlags.set id true })
  | none => (Except.error (NdspError.InvalidChannel id), n)

/-- `Channel::reset` calls `ndspChnReset(self.id)`. -/
def Channel.reset (c : Channel) (hw : HwState) : HwState :=
  ndspChnReset c.id hw

/-- `Channel::clear_queue` calls `ndspChnWaveBufClear(self.id)`. -/
def Channel.clear_queue (c : Channel) (hw : HwState) : HwState :=
  ndspChnWaveBufClear c.id hw

/-- `Drop for Channel` (`ndsp/mod.rs` lines 330-334): the drop body runs
`self.reset()`; afterwards the `RefMut` field is dropped, releasing the
exclusivity flag of slot `id`.  Returns the released borrow state and the
hardware state after the reset. -/
def Channel.dropChannel (c : Channel) (n : Ndsp) (hw : HwState) : Ndsp × HwState :=
  ({ channelFlags := n.channelFlags.set c.id false }, c.reset hw)

/-- `Channel::queue_wave` (`ndsp/mod.rs` lines 211-222): a buffer whose
status is `Playing` or `Queued` is rejected with `WaveBusy(self.id)` and
nothing is touched; otherwise the buffer is stamped with the channel id
(`wave.set_channel(self.id)`) and handed to `ndspChnWaveBufAdd`, which
enqueues it and marks it `Queued`. -/
def Channel.queue_wave (c : Channel) (w : WaveInfo) (hw : HwState) :
    Except NdspError Unit × WaveInfo × HwState :=
  match w.get_status with
  | WaveStatus.Playing => (Except.error (NdspError.WaveBusy c.id), w, hw)
  | WaveStatus.Queued => (Except.error (NdspError.WaveBusy c.id), w, hw)
  | _ =>
      let w2 := { w.set_channel c.id with status := WaveStatus.Queued }
      (Except.ok (), w2, ndspChnWaveBufAdd c.id w2.bufId hw)

/-- One iteration of the loop in `Drop for Ndsp`:
`self.channel(i).unwrap().clear_queue();` — acquire channel `i` (`none`
models the `unwrap` panic on failure), clear its queue, then the temporary
`Channel` is dropped at the end of the statement, running its own drop
(reset + flag release). -/
def Ndsp.dropStep (st : Ndsp × HwState) (i : Nat) : Option (Ndsp × HwState) :=
  match st.1.channel i with
  | (Except.ok c, n2) => some (c.dropChannel n2 (c.clear_queue st.2))
  | (Except.error _, _) => none

/-- `Drop for Ndsp` (`ndsp/mod.rs` lines 336-342): for every
`i in 0..NUMBER_OF_CHANNELS`, acquire channel `i`, clear its queue, and
drop the temporary handle.  `none` models a panic of the `unwrap`
(impossible at drop time: the borrow checker guarantees no `Channel`
outlives the `Ndsp`, so every flag is free). -/
def Ndsp.dropNdsp (n : Ndsp) (hw : HwState) : Option (Ndsp × HwState) :=
  (List.range NUMBER_OF_CHANNELS).foldlM Ndsp.dropStep (n, hw)

/-- Modelled from the spec: `Drop for WaveInfo` of the absent `wave.rs` —
"if status is not `Free`/`Done` at destruction time, the implementation
must clear the owning channel's whole queue before releasing the buffer's
memory"; the owning channel is the one recorded by `set_channel`.  The
defensive clear is total: it has no failure path. -/
def WaveInfo.dropWave (w : WaveInfo) (hw : HwState) : HwState :=
  match w.get_status with
  | WaveStatus.Free => hw
  | WaveStatus.Done => hw
  | _ =>
      match w.channelId with
      | some id => ndspChnWaveBufClear id hw
      | none => hw

/-- Errors surfaced by `crate::Result` construction paths: a mutually
exclusive service already running, or a native result-code failure. -/
inductive CtruError where
  | ServiceAlreadyActive
  | Os (code : Int)
deriving DecidableEq, Repr

/-- Modelled from the spec: the process-wide service-activation state of
the absent `services/mod.rs` (`ServiceReference` over the `NDSP_ACTIVE`
counter) — "a count of live `Ndsp` owners guarded by a mutual-exclusion
lock"; `active` is whether the underlying hardware service is running. -/
structure ServiceState where
  count : Nat
  active : Bool
deriving DecidableEq, Repr

/-- Modelled from the spec: `ServiceReference::new(counter, exclusive,
init_fn, cleanup_fn)` of the absent `services/mod.rs` — "If `exclusive` is
true, fails when the counter is already nonzero. Otherwise increments the
counter, calling `init_fn` only on the 0→1 transition; `init_fn` failure
leaves the counter unchanged and propagates the failure."  `initRes` is
the outcome `init_fn` would produce if called; the returned `Bool` records
whether `init_fn` was actually called. -/
def ServiceReference.new (s : ServiceState) (exclusive : Bool)
    (initRes : Except CtruError Unit) :
    Except CtruError Unit × ServiceState × Bool :=
  if exclusive ∧ s.count ≠ 0 then
    (Except.error CtruError.ServiceAlreadyActive, s, false)
  else if s.count = 0 then
    match initRes with
    | Except.ok _ => (Except.ok (), { count := 1, active := true }, true)
    | Except.error e => (Except.error e, s, true)
  else
    (Except.ok (), { s with count := s.count + 1 }, false)

/-- Modelled from the spec: `Drop for ServiceReference` of the absent
`services/mod.rs` — "Destruction of the handle decrements the counter,
calling `cleanup_fn` only on the 1→0 transition."  The returned `Bool`
records whether `cleanup_fn` was called. -/
def ServiceReference.dropRef (s : ServiceState) : ServiceState × Bool :=
  if s.count - 1 = 0 then ({ count := 0, active := false }, true)
  else ({ count := s.count - 1, active := s.active }, false)

/-- `Ndsp::init` (`ndsp/mod.rs` lines 76-94): acquires the shared service
reference over `NDSP_ACTIVE` with `exclusive = false` (`init_fn` runs
`ndspInit`, `cleanup_fn` runs `ndspExit`); on success the struct holds the
handler and a default (all-unborrowed) flag array. -/
def Ndsp.init (s : ServiceState) (ndspInitRes : Except CtruError Unit) :
    Except CtruError Ndsp × ServiceState × Bool :=
  match ServiceReference.new s false ndspInitRes with
  | (Except.ok _, s2, ran) => (Except.ok Ndsp.freshFlags, s2, ran)
  | (Except.error e, s2, ran) => (Except.error e, s2, ran)

/-- Resetting only the parameter block of channel `id` (used to state that
`ndspChnReset` is `clear_queue` plus a parameter reset). -/
def HwState.resetParams (hw : HwState) (id : Nat) : HwState :=
  hw.updateChannel id (fun ch => { ch with params := ChannelParams.initial })

/-- C10: `AudioFormat::sample_size` is total over the four audio formats
and returns exactly 1 byte for `PCM8Mono`, 2 bytes for `PCM16Mono` and for
`PCM8Stereo`, and 4 bytes for `PCM16Stereo`; its result is always one of
{1, 2, 4}. -/
theorem C10_sample_size_values :
    AudioFormat.PCM8Mono.sample_size = 1 ∧
    AudioFormat.PCM16Mono.sample_size = 2 ∧
    AudioFormat.PCM8Stereo.sample_size = 2 ∧
    AudioFormat.PCM16Stereo.sample_size = 4 ∧
    ∀ f : AudioFormat, f.sample_size = 1 ∨ f.sample_size = 2 ∨ f.sample_size = 4 := by
  refine ⟨rfl, rfl, rfl, rfl, ?_⟩
  intro f
  cases f <;> simp [AudioFormat.sample_size]

/-- C3: on any `Ndsp` (its flag array has the fixed size 24), `channel(id)`
with `id ≥ 24` returns `InvalidChannel(id)`; and ids 0 through 23 are the
only valid ids — on a fresh `Ndsp` every `id < 24` is accepted. -/
theorem C3_invalid_channel (n : Ndsp) (id : Nat)
    (hwf : n.channelFlags.length = NUMBER_OF_CHANNELS) :
    (NUMBER_OF_CHANNELS ≤ id →
      (n.channel id).1 = Except.error (NdspError.InvalidChannel id)) ∧
    (id < NUMBER_OF_CHANNELS →
      (Ndsp.freshFlags.channel id).1 = Except.ok { id := id }) := by
  constructor
  · intro hge
    have hnone : n.channelFlags[id]? = none := by
      apply List.getElem?_eq_none
      omega
    simp [Ndsp.channel, hnone]
  · intro hlt
    have hsome : (Ndsp.freshFlags.channelFlags)[id]? = some false := by
      simp [Ndsp.freshFlags, List.getElem?_replicate, hlt]
    simp [Ndsp.channel, hsome]

/-- C3 witness at `id = 30` (first conjunct) and `id = 5` (second). -/
theorem C3_invalid_channel_witness :
    (NUMBER_OF_CHANNELS ≤ 30 →
      (Ndsp.freshFlags.channel 30).1 = Except.error (NdspError.InvalidChannel 30)) ∧
    (5 < NUMBER_OF_CHANNELS →
      (Ndsp.freshFlags.channel 5).1 = Except.ok { id := 5 }) :=
  C3_invalid_channel Ndsp.freshFlags 30 (by decide) |>.imp id
    (fun _ _ => (C3_invalid_channel Ndsp.freshFlags 5 (by decide)).2 (by decide))

/-- C1: for `id < 24` with the slot free (as on a fresh `Ndsp`), the first
`channel(id)` call succeeds with a handle for `id`; while that handle is
live (the flag is borrowed), a second `channel(id)` call returns
`ChannelAlreadyInUse(id)` — so at most one live handle exists per id; after
the handle is dropped, `channel(id)` succeeds again. -/
theorem C1_channel_exclusivity (n : Ndsp) (id : Nat) (hw : HwState)
    (hid : id < NUMBER_OF_CHANNELS)
    (hwf : n.channelFlags.length = NUMBER_OF_CHANNELS)
    (hfree : n.channelFlags[id]? = some false) :
    (n.channel id).1 = Except.ok { id := id } ∧
    (((n.channel id).2).channel id).1 =
      Except.error (NdspError.ChannelAlreadyInUse id) ∧
    ((((Channel.mk id).dropChannel (n.channel id).2 hw).1).channel id).1 =
      Except.ok { id := id } := by
  have hlt : id < n.channelFlags.length := by omega
  have h1 : n.channel id =
      (Except.ok { id := id }, { channelFlags := n.channelFlags.set id true }) := by
    simp [Ndsp.channel, hfree]
  have hheld : (n.channelFlags.set id true)[id]? = some true := by
    simp [List.getElem?_set_self, hlt]
  have hrel : (n.channelFlags.set id false)[id]? = some false := by
    simp [List.getElem?_set_self, hlt]
  refine ⟨by rw [h1], ?_, ?_⟩
  · rw [h1]
    simp [Ndsp.channel, hheld]
  · rw [h1]
    simp [Channel.dropChannel, Channel.reset, Ndsp.channel, List.set_set, hrel]

/-- C1 witness: the three-phase scenario on a fresh `Ndsp` at `id = 0`. -/
theorem C1_channel_exclusivity_witness :
    (Ndsp.freshFlags.channel 0).1 = Except.ok { id := 0 } ∧
    (((Ndsp.freshFlags.channel 0).2).channel 0).1 =
      Except.error (NdspError.ChannelAlreadyInUse 0) ∧
    ((((Channel.mk 0).dropChannel (Ndsp.freshFlags.channel 0).2
        { channels := [] }).1).channel 0).1 = Except.ok { id := 0 } :=
  C1_channel_exclusivity Ndsp.freshFlags 0 { channels := [] }
    (by decide) (by decide) (by decide)

/-- C8: whenever `Ndsp::channel(id)` returns an error (either
`InvalidChannel` or `ChannelAlreadyInUse`), the borrow state is unchanged —
no exclusivity flag is taken — so every subsequent `channel(id2)` call
behaves exactly as if the failed call had never been made. -/
theorem C8_channel_error_atomicity (n : Ndsp) (id : Nat) (e : NdspError)
    (herr : (n.channel id).1 = Except.error e) :
    (n.channel id).2 = n ∧
    ∀ id2 : Nat, ((n.channel id).2).channel id2 = n.channel id2 := by
  have hsnd : (n.channel id).2 = n := by
    unfold Ndsp.channel at herr ⊢
    cases hx : n.channelFlags[id]? with
    | none => simp [hx]
    | some flag =>
        cases flag with
        | true => simp [hx]
        | false => rw [hx] at herr; simp at herr
  exact ⟨hsnd, fun id2 => by rw [hsnd]⟩

/-- C8 witness: the failed call `channel(24)` (InvalidChannel) on a fresh
`Ndsp` leaves the state unchanged. -/
theorem C8_channel_error_atomicity_witness :
    (Ndsp.freshFlags.channel 24).2 = Ndsp.freshFlags ∧
    ∀ id2 : Nat, ((Ndsp.freshFlags.channel 24).2).channel id2 =
      Ndsp.freshFlags.channel id2 :=
  C8_channel_error_atomicity Ndsp.freshFlags 24 (NdspError.InvalidChannel 24)
    rfl

/-- C2: `Channel::queue_wave` rejects a buffer whose status is `Playing` or
`Queued` with `WaveBusy` and submits nothing; for a buffer whose status is
`Free` or `Done` it succeeds, stamps the buffer with this channel's id
(status becoming `Queued`), and appends it to this channel's hardware
FIFO queue. -/
theorem C2_queue_wave (c : Channel) (w : WaveInfo) (hw : HwState) :
    (w.get_status = WaveStatus.Playing ∨ w.get_status = WaveStatus.Queued →
      c.queue_wave w hw = (Except.error (NdspError.WaveBusy c.id), w, hw)) ∧
    (w.get_status = WaveStatus.Free ∨ w.get_status = WaveStatus.Done →
      (c.queue_wave w hw).1 = Except.ok () ∧
      (c.queue_wave w hw).2.1.channelId = some c.id ∧
      (c.queue_wave w hw).2.1.status = WaveStatus.Queued ∧
      (c.queue_wave w hw).2.2.channels[c.id]? =
        (hw.channels[c.id]?).map (fun ch => { ch with queue := ch.queue ++ [w.bufId] })) := by
  constructor
  · rintro (hb | hb) <;> simp [Channel.queue_wave, hb]
  · rintro (hf | hf)
    all_goals
      refine ⟨?_, ?_, ?_, ?_⟩ <;>
        simp [Channel.queue_wave, hf, WaveInfo.set_channel, ndspChnWaveBufAdd,
          HwState.updateChannel]
    all_goals
      cases hx : hw.channels[c.id]? with
      | none => simp [hx]
      | some ch =>
          have hlt : c.id < hw.channels.length :=
            (List.getElem?_eq_some.mp hx).1
          simp [hx, List.getElem?_set_self, hlt]

/-- C2 witness: a `Playing` buffer is rejected on channel 3; a `Free`
buffer is accepted, stamped and enqueued on channel 3. -/
theorem C2_queue_wave_witness :
    ((Channel.mk 3).queue_wave ⟨7, WaveStatus.Playing, none⟩
        { channels := List.replicate 24 ChannelState.initial } =
      (Except.error (NdspError.WaveBusy 3), ⟨7, WaveStatus.Playing, none⟩,
        { channels := List.replicate 24 ChannelState.initial })) ∧
    (((Channel.mk 3).queue_wave ⟨7, WaveStatus.Free, none⟩
        { channels := List.replicate 24 ChannelState.initial }).1 = Except.ok () ∧
      ((Channel.mk 3).queue_wave ⟨7, WaveStatus.Free, none⟩
        { channels := List.replicate 24 ChannelState.initial }).2.1.channelId = some 3 ∧
      ((Channel.mk 3).queue_wave ⟨7, WaveStatus.Free, none⟩
        { channels := List.replicate 24 ChannelState.initial }).2.1.status =
          WaveStatus.Queued ∧
      ((Channel.mk 3).queue_wave ⟨7, WaveStatus.Free, none⟩
        { channels := List.replicate 24 ChannelState.initial }).2.2.channels[3]? =
        (({ channels := List.replicate 24 ChannelState.initial } : HwState).channels[3]?).map
          (fun ch => { ch with queue := ch.queue ++ [7] })) :=
  ⟨(C2_queue_wave (Channel.mk 3) ⟨7, WaveStatus.Playing, none⟩
      { channels := List.replicate 24 ChannelState.initial }).1 (Or.inl rfl),
   (C2_queue_wave (Channel.mk 3) ⟨7, WaveStatus.Free, none⟩
      { channels := List.replicate 24 ChannelState.initial }).2 (Or.inl rfl)⟩

/-- C9: whenever `queue_wave` returns `WaveBusy(i)`, the wave buffer is
left entirely unmodified (no channel id recorded, no status change), the
hardware queue is untouched, and the id `i` carried by the error is the id
of the channel on which `queue_wave` was called. -/
theorem C9_queue_wave_atomicity (c : Channel) (w : WaveInfo) (hw : HwState)
    (i : Nat) (herr : (c.queue_wave w hw).1 = Except.error (NdspError.WaveBusy i)) :
    (c.queue_wave w hw).2.1 = w ∧ (c.queue_wave w hw).2.2 = hw ∧ i = c.id := by
  cases hs : w.get_status with
  | Playing =>
      simp [Channel.queue_wave, hs] at herr ⊢
      omega
  | Queued =>
      simp [Channel.queue_wave, hs] at herr ⊢
      omega
  | Free => simp [Channel.queue_wave, hs] at herr
  | Done => simp [Channel.queue_wave, hs] at herr

/-- C9 witness: a `Queued` buffer submitted to channel 5 produces
`WaveBusy 5` and leaves buffer and hardware state untouched. -/
theorem C9_queue_wave_atomicity_witness :
    ((Channel.mk 5).queue_wave ⟨9, WaveStatus.Queued, some 2⟩
        { channels := [] }).2.1 = ⟨9, WaveStatus.Queued, some 2⟩ ∧
    ((Channel.mk 5).queue_wave ⟨9, WaveStatus.Queued, some 2⟩
        { channels := [] }).2.2 = { channels := [] } ∧
    5 = (Channel.mk 5).id :=
  C9_queue_wave_atomicity (Channel.mk 5) ⟨9, WaveStatus.Queued, some 2⟩
    { channels := [] } 5 rfl

theorem HwState.getElem?_updateChannel_self (hw : HwState) (i : Nat)
    (f : ChannelState → ChannelState) :
    (hw.updateChannel i f).channels[i]? = (hw.channels[i]?).map f := by
  unfold HwState.updateChannel
  cases hx : hw.channels[i]? with
  | none => simp [hx]
  | some ch =>
      have hlt : i < hw.channels.length := (List.getElem?_eq_some.mp hx).1
      simp [hx, List.getElem?_set_self, hlt]

theorem HwState.getElem?_updateChannel_ne (hw : HwState) (i j : Nat)
    (f : ChannelState → ChannelState) (hne : i ≠ j) :
    (hw.updateChannel i f).channels[j]? = hw.channels[j]? := by
  unfold HwState.updateChannel
  cases hx : hw.channels[i]? with
  | none => simp
  | some ch => simp [List.getElem?_set_ne, hne]

theorem HwState.length_updateChannel (hw : HwState) (i : Nat)
    (f : ChannelState → ChannelState) :
    (hw.updateChannel i f).channels.length = hw.channels.length := by
  unfold HwState.updateChannel
  cases hx : hw.channels[i]? with
  | none => simp
  | some ch => simp

theorem HwState.updateChannel_updateChannel (hw : HwState) (i : Nat)
    (f g : ChannelState → ChannelState) :
    (hw.updateChannel i f).updateChannel i g =
      hw.updateChannel i (fun ch => g (f ch)) := by
  unfold HwState.updateChannel
  cases hx : hw.channels[i]? with
  | none => simp [hx]
  | some ch =>
      have hlt : i < hw.channels.length := (List.getElem?_eq_some.mp hx).1
      simp [hx, List.getElem?_set_self, hlt, List.set_set]

/-- `ndspChnReset` is exactly `ndspChnWaveBufClear` followed by a reset of
the parameter block (used by C6). -/
theorem ndspChnReset_eq_clear_then_params (i : Nat) (hw : HwState) :
    (ndspChnWaveBufClear i hw).resetParams i = ndspChnReset i hw := by
  unfold ndspChnWaveBufClear HwState.resetParams ndspChnReset
  rw [HwState.updateChannel_updateChannel]
  rfl

/-- C5: if a `WaveInfo` is destroyed while its status is still `Playing` or
`Queued`, the whole queue of the channel recorded as its owner is cleared
before the memory is released; the defensive clear is the total function
`ndspChnWaveBufClear` — it has no failure path. -/
theorem C5_waveinfo_drop_clears_queue (w : WaveInfo) (hw : HwState) (i : Nat)
    (hst : w.get_status = WaveStatus.Playing ∨ w.get_status = WaveStatus.Queued)
    (hch : w.channelId = some i) :
    w.dropWave hw = ndspChnWaveBufClear i hw ∧
    (w.dropWave hw).channels[i]? =
      (hw.channels[i]?).map (fun ch => { ch with queue := [] }) := by
  have h1 : w.dropWave hw = ndspChnWaveBufClear i hw := by
    rcases hst with hb | hb <;> simp [WaveInfo.dropWave, hb, hch]
  refine ⟨h1, ?_⟩
  rw [h1]
  exact HwState.getElem?_updateChannel_self hw i _

/-- C5 witness: a `Playing` buffer owned by channel 2 is destroyed; channel
2's queue (holding buffers 7 and 8) is cleared. -/
theorem C5_waveinfo_drop_clears_queue_witness :
    (WaveInfo.mk 7 WaveStatus.Playing (some 2)).dropWave
        { channels := List.replicate 24 { queue := [7, 8], params := ChannelParams.initial } } =
      ndspChnWaveBufClear 2
        { channels := List.replicate 24 { queue := [7, 8], params := ChannelParams.initial } } ∧
    ((WaveInfo.mk 7 WaveStatus.Playing (some 2)).dropWave
        { channels := List.replicate 24 { queue := [7, 8], params := ChannelParams.initial } }).channels[2]? =
      ((({ channels := List.replicate 24 { queue := [7, 8], params := ChannelParams.initial } } :
        HwState).channels)[2]?).map (fun ch => { ch with queue := [] }) :=
  C5_waveinfo_drop_clears_queue (WaveInfo.mk 7 WaveStatus.Playing (some 2))
    { channels := List.replicate 24 { queue := [7, 8], params := ChannelParams.initial } } 2
    (Or.inl rfl) rfl

/-- C6: dropping a `Channel` handle resets its hardware lane — the result
equals `clear_queue` followed by a parameter reset to defaults — and only
then is the exclusivity token released: afterwards the same id can be
acquired again, and the new acquirer finds the lane in its initial state
(empty queue, default parameters), never mid-playback. -/
theorem C6_channel_drop_resets (c : Channel) (n : Ndsp) (hw : HwState)
    (hidn : c.id < n.channelFlags.length) :
    (c.dropChannel n hw).2 = (c.clear_queue hw).resetParams c.id ∧
    ((c.dropChannel n hw).2).channels[c.id]? =
      (hw.channels[c.id]?).map (fun _ => ChannelState.initial) ∧
    (((c.dropChannel n hw).1).channel c.id).1 = Except.ok { id := c.id } := by
  refine ⟨?_, ?_, ?_⟩
  · unfold Channel.dropChannel Channel.reset Channel.clear_queue
    rw [ndspChnReset_eq_clear_then_params]
  · unfold Channel.dropChannel Channel.reset ndspChnReset
    exact HwState.getElem?_updateChannel_self hw c.id _
  · have hrel : ((c.dropChannel n hw).1).channelFlags[c.id]? = some false := by
      simp [Channel.dropChannel, List.getElem?_set_self, hidn]
    simp [Ndsp.channel, hrel]

/-- C6 witness: dropping the handle for channel 1 while its lane holds a
queued buffer and a non-default format leaves the lane in its initial
state and lets channel 1 be acquired again. -/
theorem C6_channel_drop_resets_witness :
    ((Channel.mk 1).dropChannel (Ndsp.freshFlags.channel 1).2
        { channels := List.replicate 24
            { queue := [3], params := { ChannelParams.initial with
                format := some AudioFormat.PCM16Stereo } } }).2 =
      (((Channel.mk 1).clear_queue
        { channels := List.replicate 24
            { queue := [3], params := { ChannelParams.initial with
                format := some AudioFormat.PCM16Stereo } } })).resetParams 1 ∧
    (((Channel.mk 1).dropChannel (Ndsp.freshFlags.channel 1).2
        { channels := List.replicate 24
            { queue := [3], params := { ChannelParams.initial with
                format := some AudioFormat.PCM16Stereo } } }).2).channels[1]? =
      ((({ channels := List.replicate 24
            { queue := [3], params := { ChannelParams.initial with
                format := some AudioFormat.PCM16Stereo } } } : HwState).channels)[1]?).map
        (fun _ => ChannelState.initial) ∧
    ((((Channel.mk 1).dropChannel (Ndsp.freshFlags.channel 1).2
        { channels := List.replicate 24
            { queue := [3], params := { ChannelParams.initial with
                format := some AudioFormat.PCM16Stereo } } }).1).channel 1).1 =
      Except.ok { id := 1 } :=
  C6_channel_drop_resets (Channel.mk 1) (Ndsp.freshFlags.channel 1).2
    { channels := List.replicate 24
        { queue := [3], params := { ChannelParams.initial with
            format := some AudioFormat.PCM16Stereo } } }
    (by decide)

/-- With every flag free (the only configuration possible at `Ndsp` drop
time), one teardown iteration succeeds, leaves the flags all free again,
and performs `clear_queue` + `reset` on lane `i`. -/
theorem Ndsp.dropStep_eq (hw : HwState) (i : Nat) (hi : i < NUMBER_OF_CHANNELS) :
    Ndsp.dropStep (Ndsp.freshFlags, hw) i =
      some (Ndsp.freshFlags, ndspChnReset i (ndspChnWaveBufClear i hw)) := by
  have hfree : Ndsp.freshFlags.channelFlags[i]? = some false := by
    simp [Ndsp.freshFlags, List.getElem?_replicate, hi]
  have hch : Ndsp.freshFlags.channel i =
      (Except.ok { id := i },
        { channelFlags := Ndsp.freshFlags.channelFlags.set i true }) := by
    simp [Ndsp.channel, hfree]
  unfold Ndsp.dropStep
  rw [hch]
  unfold Channel.dropChannel Channel.clear_queue Channel.reset
  simp [Ndsp.freshFlags, List.set_set, List.set_replicate_self]

/-- The teardown loop over any index list below 24 succeeds and equals the
pure fold of `clear_queue` + `reset` over those lanes. -/
theorem Ndsp.dropLoop_eq (l : List Nat) (hw : HwState)
    (hl : ∀ i ∈ l, i < NUMBER_OF_CHANNELS) :
    l.foldlM Ndsp.dropStep (Ndsp.freshFlags, hw) =
      some (Ndsp.freshFlags,
        l.foldl (fun h i => ndspChnReset i (ndspChnWaveBufClear i h)) hw) := by
  induction l generalizing hw with
  | nil => rfl
  | cons a t ih =>
      have ha : a < NUMBER_OF_CHANNELS := hl a (List.mem_cons_self a t)
      have ht : ∀ i ∈ t, i < NUMBER_OF_CHANNELS := fun i hi => hl i (List.mem_cons_of_mem a hi)
      rw [List.foldlM_cons, Ndsp.dropStep_eq hw a ha]
      simp only [Option.bind_eq_bind, Option.some_bind]
      rw [ih _ ht]
      rfl

/-- A lane already in its initial state stays initial under further
teardown iterations. -/
theorem teardown_fold_preserves_initial (l : List Nat) (h : HwState) (i : Nat)
    (hin : h.channels[i]? = some ChannelState.initial) :
    (l.foldl (fun h j => ndspChnReset j (ndspChnWaveBufClear j h)) h).channels[i]? =
      some ChannelState.initial := by
  induction l generalizing h with
  | nil => exact hin
  | cons a t ih =>
      apply ih
      by_cases hij : a = i
      · subst hij
        unfold ndspChnReset ndspChnWaveBufClear
        rw [HwState.getElem?_updateChannel_self]
        rw [HwState.getElem?_updateChannel_self, hin]
        rfl
      · unfold ndspChnReset ndspChnWaveBufClear
        rw [HwState.getElem?_updateChannel_ne _ _ _ _ hij]
        rw [HwState.getElem?_updateChannel_ne _ _ _ _ hij]
        exact hin

/-- Every lane visited by the teardown fold ends in its initial state. -/
theorem teardown_fold_clears (l : List Nat) (h : HwState) (i : Nat)
    (hmem : i ∈ l) (hlen : i < h.channels.length) :
    (l.foldl (fun h j => ndspChnReset j (ndspChnWaveBufClear j h)) h).channels[i]? =
      some ChannelState.initial := by
  induction l generalizing h with
  | nil => cases hmem
  | cons a t ih =>
      rw [List.foldl_cons]
      by_cases hia : i = a
      · subst hia
        apply teardown_fold_preserves_initial
        unfold ndspChnReset ndspChnWaveBufClear
        rw [HwState.getElem?_updateChannel_self]
        rw [HwState.getElem?_updateChannel_self]
        cases hx : h.channels[i]? with
        | none =>
            exact absurd hx (by simp [List.getElem?_eq_none_iff]; omega)
        | some ch => rfl
      · have hmem2 : i ∈ t := by
          cases List.mem_cons.mp hmem with
          | inl h' => exact absurd h' hia
          | inr h' => exact h'
        refine ih _ hmem2 ?_
        unfold ndspChnReset ndspChnWaveBufClear
        rw [HwState.length_updateChannel, HwState.length_updateChannel]
        exact hlen

/-- C4: dropping an `Ndsp` (at which point the borrow checker guarantees
every exclusivity flag is free, i.e. the flag state is `freshFlags`)
succeeds in acquiring every channel id in [0, 24) and clears its
wave-buffer queue; afterwards every lane is in its initial state — empty
queue, so no channel remains `Playing` or `Queued`. -/
theorem C4_ndsp_drop_clears_all (n : Ndsp) (hw : HwState)
    (hflags : n = Ndsp.freshFlags)
    (hlen : hw.channels.length = NUMBER_OF_CHANNELS) :
    ∃ hw2 : HwState, n.dropNdsp hw = some (Ndsp.freshFlags, hw2) ∧
      (∀ i, i < NUMBER_OF_CHANNELS → hw2.channels[i]? = some ChannelState.initial) ∧
      (∀ i, i < NUMBER_OF_CHANNELS → (hw2.channels[i]?).map ChannelState.queue = some []) := by
  subst hflags
  have hrange : ∀ i ∈ List.range NUMBER_OF_CHANNELS, i < NUMBER_OF_CHANNELS :=
    fun i hi => List.mem_range.mp hi
  refine ⟨(List.range NUMBER_OF_CHANNELS).foldl
      (fun h i => ndspChnReset i (ndspChnWaveBufClear i h)) hw,
    Ndsp.dropLoop_eq (List.range NUMBER_OF_CHANNELS) hw hrange, ?_, ?_⟩
  · intro i hi
    exact teardown_fold_clears (List.range NUMBER_OF_CHANNELS) hw i
      (List.mem_range.mpr hi) (by omega)
  · intro i hi
    rw [teardown_fold_clears (List.range NUMBER_OF_CHANNELS) hw i
      (List.mem_range.mpr hi) (by omega)]
    rfl

/-- C4 witness: teardown of a fresh `Ndsp` over a hardware state in which
every lane holds a queued buffer. -/
theorem C4_ndsp_drop_clears_all_witness :
    ∃ hw2 : HwState,
      Ndsp.freshFlags.dropNdsp
        { channels := List.replicate 24 { queue := [9], params := ChannelParams.initial } } =
        some (Ndsp.freshFlags, hw2) ∧
      (∀ i, i < NUMBER_OF_CHANNELS → hw2.channels[i]? = some ChannelState.initial) ∧
      (∀ i, i < NUMBER_OF_CHANNELS → (hw2.channels[i]?).map ChannelState.queue = some []) :=
  C4_ndsp_drop_clears_all Ndsp.freshFlags
    { channels := List.replicate 24 { queue := [9], params := ChannelParams.initial } }
    rfl (by decide)

/-- C7: a (non-exclusive) acquisition increments the counter; `init_fn`
runs exactly on the 0→1 transition; an `init_fn` failure propagates and
leaves the counter unchanged; dropping the handle decrements the counter
and `cleanup_fn` runs exactly on the 1→0 transition; and the invariant
"the hardware service is active iff the counter is nonzero" is preserved
by both operations. -/
theorem C7_service_reference_counter (s : ServiceState)
    (initRes : Except CtruError Unit)
    (hinv : s.active = true ↔ s.count ≠ 0) :
    ((ServiceReference.new s false initRes).1 = Except.ok () →
      (ServiceReference.new s false initRes).2.1.count = s.count + 1) ∧
    ((ServiceReference.new s false initRes).2.2 = true ↔ s.count = 0) ∧
    (∀ e, initRes = Except.error e → s.count = 0 →
      (ServiceReference.new s false initRes).1 = Except.error e ∧
      (ServiceReference.new s false initRes).2.1 = s) ∧
    (1 ≤ s.count →
      (ServiceReference.dropRef s).1.count = s.count - 1 ∧
      ((ServiceReference.dropRef s).2 = true ↔ s.count = 1)) ∧
    ((ServiceReference.new s false initRes).1 = Except.ok () →
      ((ServiceReference.new s false initRes).2.1.active = true ↔
        (ServiceReference.new s false initRes).2.1.count ≠ 0)) ∧
    (1 ≤ s.count →
      ((ServiceReference.dropRef s).1.active = true ↔
        (ServiceReference.dropRef s).1.count ≠ 0)) := by
  unfold ServiceReference.new ServiceReference.dropRef
  by_cases h0 : s.count = 0
  · cases initRes with
    | ok u => refine ⟨?_, ?_, ?_, ?_, ?_, ?_⟩ <;> simp [h0, hinv]
    | error e => refine ⟨?_, ?_, ?_, ?_, ?_, ?_⟩ <;> simp [h0, hinv]
  · by_cases h1 : s.count = 1
    · refine ⟨?_, ?_, ?_, ?_, ?_, ?_⟩ <;> simp [h0, h1, hinv]
    · have hd : ¬ (s.count - 1 = 0) := by omega
      refine ⟨?_, ?_, ?_, ?_, ?_, ?_⟩ <;> simp [h0, h1, hd, hinv]

/-- C7 witness: the full scenario at counter 0 with a succeeding
`init_fn`. -/
theorem C7_service_reference_counter_witness :
    ((ServiceReference.new ⟨0, false⟩ false (Except.ok ())).1 = Except.ok () →
      (ServiceReference.new ⟨0, false⟩ false (Except.ok ())).2.1.count = 0 + 1) ∧
    ((ServiceReference.new ⟨0, false⟩ false (Except.ok ())).2.2 = true ↔ (0 : Nat) = 0) ∧
    (∀ e, Except.ok () = Except.error e → (0 : Nat) = 0 →
      (ServiceReference.new ⟨0, false⟩ false (Except.ok ())).1 = Except.error e ∧
      (ServiceReference.new ⟨0, false⟩ false (Except.ok ())).2.1 = ⟨0, false⟩) ∧
    (1 ≤ (0 : Nat) →
      (ServiceReference.dropRef ⟨0, false⟩).1.count = 0 - 1 ∧
      ((ServiceReference.dropRef ⟨0, false⟩).2 = true ↔ (0 : Nat) = 1)) ∧
    ((ServiceReference.new ⟨0, false⟩ false (Except.ok ())).1 = Except.ok () →
      ((ServiceReference.new ⟨0, false⟩ false (Except.ok ())).2.1.active = true ↔
        (ServiceReference.new ⟨0, false⟩ false (Except.ok ())).2.1.count ≠ 0)) ∧
    (1 ≤ (0 : Nat) →
      ((ServiceReference.dropRef ⟨0, false⟩).1.active = true ↔
        (ServiceReference.dropRef ⟨0, false⟩).1.count ≠ 0)) :=
  C7_service_reference_counter ⟨0, false⟩ (Except.ok ()) (by simp)
